import Mathlib

/-!
Shallow embedding of `src/app.js` (an Express contact-capture service):
the Zod validation schema `contatoSchema`, the POST "/" submission
handler, the GET "/contatos" listing handler, and the access-log
middleware, together with theorems about their behaviour.

Conventions of the embedding:
* A request body (`req.body`) maps each of the three schema fields to an
  optional JSON value: absent (`none`), a string, or some non-string
  JSON value (`JsonVal.other` carrying the JSON type name, which Zod
  reports in its default invalid-type message). Unknown extra fields are
  kept in `Body.extra` so that theorems about their irrelevance are not
  vacuous.
* The persistence store is a list of `Contato` records; `Contato.create`
  and `Contato.findAll` of the external model (required from `./models`,
  not part of the sources) are modelled from the spec.
* JavaScript string `.length` is modelled by `String.length` (the inputs
  at stake are plain text, where the two agree).
-/

/-- A JSON value as far as the schema distinguishes them: a string, or a
non-string value tagged with its JSON type name (as reported by Zod's
default invalid-type message). -/
inductive JsonVal where
  | str (s : String)
  | other (typeName : String)
deriving DecidableEq

/-- The request body of a submission: the three schema fields, each
possibly absent, plus any unknown extra fields (which Zod's non-strict
object parsing ignores). -/
structure Body where
  nome : Option JsonVal
  email : Option JsonVal
  telefone : Option JsonVal
  extra : List (String × JsonVal)
deriving DecidableEq

/-- A persisted contact record, fields in the order of the
`Contato.create({ nome, telefone, email })` call in the POST handler. -/
structure Contato where
  nome : String
  telefone : String
  email : String
deriving DecidableEq

/-- Embedding of the regex `/^\(\d{2}\) \d{5}-\d{4}$/` from
`contatoSchema.telefone`: the whole string is exactly an open paren, two
digits, a close paren, a space, five digits, a hyphen, four digits.
`\d` without the unicode flag matches exactly the ASCII digits. -/
def matchesTelefone (s : String) : Bool :=
  match s.data with
  | [c0, c1, c2, c3, c4, c5, c6, c7, c8, c9, c10, c11, c12, c13, c14] =>
      c0 == '(' && c1.isDigit && c2.isDigit && c3 == ')' && c4 == ' ' &&
      c5.isDigit && c6.isDigit && c7.isDigit && c8.isDigit && c9.isDigit &&
      c10 == '-' && c11.isDigit && c12.isDigit && c13.isDigit && c14.isDigit
  | _ => false

/-- Characters allowed anywhere in the local part of an email by Zod's
email regex, class `[A-Z0-9_'+\-\.]` under the `i` flag (`Char.ofNat 39`
is the apostrophe). -/
def zodLocalChar (c : Char) : Bool :=
  c.isAlphanum || c == '_' || c == Char.ofNat 39 || c == '+' || c == '-' || c == '.'

/-- Characters allowed as the last character of the local part, class
`[A-Z0-9_+\-]` under the `i` flag. -/
def zodLocalEnd (c : Char) : Bool :=
  c.isAlphanum || c == '_' || c == '+' || c == '-'

/-- Whether the character list contains two consecutive dots (the
`(?!.*\.\.)` lookahead of Zod's email regex, negated). -/
def hasDoubleDot : List Char → Bool
  | [] => false
  | [_] => false
  | c1 :: c2 :: rest => (c1 == '.' && c2 == '.') || hasDoubleDot (c2 :: rest)

/-- One non-final domain label of Zod's email regex: `[A-Z0-9][A-Z0-9\-]*`
under the `i` flag. -/
def zodLabel (l : List Char) : Bool :=
  match l with
  | [] => false
  | c :: rest => c.isAlphanum && rest.all (fun d => d.isAlphanum || d == '-')

/-- The domain part of Zod's email regex:
`([A-Z0-9][A-Z0-9\-]*\.)+[A-Z]{2,}` under the `i` flag — one or more
labels each followed by a dot, then a top-level domain of at least two
letters. -/
def zodDomain (domain : List Char) : Bool :=
  match (domain.splitOn '.').reverse with
  | tld :: labels =>
      !labels.isEmpty && labels.all zodLabel &&
      decide (2 ≤ tld.length) && tld.all Char.isAlpha
  | [] => false

/-- Embedding of Zod's email regex
`/^(?!\.)(?!.*\.\.)([A-Z0-9_'+\-\.]*)[A-Z0-9_+\-]@([A-Z0-9][A-Z0-9\-]*\.)+[A-Z]{2,}$/i`
used by `contatoSchema.email`'s `.email()` check.  Since no character
class of the regex contains `@`, a match splits the string at its unique
`@` into a local part and a domain part. -/
def zodEmail (s : String) : Bool :=
  (match s.data.head? with
   | some c => !(c == '.')
   | none => false) &&
  !hasDoubleDot s.data &&
  (match s.data.splitOn '@' with
   | [loc, domain] =>
       !loc.isEmpty && loc.all zodLocalChar &&
       (match loc.getLast? with
        | some c => zodLocalEnd c
        | none => false) &&
       zodDomain domain
   | _ => false)

/-- Field parser for `nome`:
`z.string({ message: "Campo nome é obrigatório" }).min(3, { message: "O nome deve ter no mínimo 03 caracteres." })`.
The custom `message` overrides Zod's invalid-type message for both an
absent and a non-string value; the `.min(3)` check runs only on strings. -/
def parseNome : Option JsonVal → Except (List String) String
  | some (.str s) =>
      if s.length < 3 then .error ["O nome deve ter no mínimo 03 caracteres."]
      else .ok s
  | _ => .error ["Campo nome é obrigatório"]

/-- Field parser for `email`:
`z.string({ message: "Campo e-mail é obrigatório." }).email({ message: "Deve ser um e-mail válido." })`. -/
def parseEmail : Option JsonVal → Except (List String) String
  | some (.str s) =>
      if zodEmail s then .ok s
      else .error ["Deve ser um e-mail válido."]
  | _ => .error ["Campo e-mail é obrigatório."]

/-- Field parser for `telefone`:
`z.string().regex(/^\(\d{2}\) \d{5}-\d{4}$/, { message: "Deve enviar um telefone válido" })`.
No custom message is declared for `z.string()` itself, so an absent
value gets Zod's default required wording `"Required"` and a non-string
value gets the default invalid-type wording. -/
def parseTelefone : Option JsonVal → Except (List String) String
  | some (.str s) =>
      if matchesTelefone s then .ok s
      else .error ["Deve enviar um telefone válido"]
  | some (.other t) => .error ["Expected string, received " ++ t]
  | none => .error ["Required"]

/-- The error messages of one field's parse result (empty on success). -/
def errsOf : Except (List String) String → List String
  | .error l => l
  | .ok _ => []

/-- Error messages produced by the `nome` rules on a field value. -/
def nomeIssues (n : Option JsonVal) : List String := errsOf (parseNome n)

/-- Error messages produced by the `email` rules on a field value. -/
def emailIssues (e : Option JsonVal) : List String := errsOf (parseEmail e)

/-- Error messages produced by the `telefone` rules on a field value. -/
def telefoneIssues (t : Option JsonVal) : List String := errsOf (parseTelefone t)

/-- All issue messages of a submission, in schema declaration order:
`nome`, then `email`, then `telefone` (the key order of the
`z.object({...})` shape, which is the order of `resultado.error.issues`). -/
def issuesOf (n e t : Option JsonVal) : List String :=
  nomeIssues n ++ emailIssues e ++ telefoneIssues t

/-- Embedding of `contatoSchema.safeParse` on the three schema fields:
success exactly when every field parses, carrying the three validated
strings; otherwise the collected issue messages in declaration order.
The record is built with the field order of the handler's
`Contato.create({ nome, telefone, email })` call. -/
def fieldsParse (n e t : Option JsonVal) : Except (List String) Contato :=
  match parseNome n, parseEmail e, parseTelefone t with
  | .ok sn, .ok se, .ok st => .ok ⟨sn, st, se⟩
  | rn, re, rt => .error (errsOf rn ++ errsOf re ++ errsOf rt)

/-- `contatoSchema.safeParse(req.body)`: parsing only looks at the three
declared fields; extra fields of the body are ignored. -/
def safeParse (b : Body) : Except (List String) Contato :=
  fieldsParse b.nome b.email b.telefone

/-- Embedding of `erros.join("; ")` (JavaScript `Array.prototype.join`). -/
def joinSep (sep : String) : List String → String
  | [] => ""
  | [x] => x
  | x :: xs => x ++ sep ++ joinSep sep xs

/-- Outcome of one POST "/" request: either a response was sent (with
the resulting persistence store), or the handler let an error escape
unguarded (no response of its own). -/
inductive PostOutcome where
  | responded (status : Nat) (body : String) (db : List Contato)
  | unhandled (error : String)
deriving DecidableEq

/-- Modelled from the spec: `Contato.create` of the external ORM model
(`./models` is not among the sources) persists exactly the given record,
appending it to the store and leaving everything else unchanged. -/
def contatoCreate (db : List Contato) (c : Contato) : Except String (List Contato) :=
  .ok (db ++ [c])

/-- The POST "/" handler (lines 47-61 of `src/app.js`), parameterised by
the persistence operation: validate the body with
`contatoSchema.safeParse`; on failure respond 400 with the messages
joined by `"; "`; on success `await Contato.create(...)` — a rejection
there is not caught, so no response of the handler's own is produced —
and respond 200 with the fixed success text.  A response carries HTTP
status 200 unless `res.status` was called. -/
def runPost (db : List Contato)
    (create : List Contato → Contato → Except String (List Contato))
    (b : Body) : PostOutcome :=
  match safeParse b with
  | .error erros => .responded 400 (joinSep "; " erros) db
  | .ok c =>
      match create db c with
      | .ok db2 => .responded 200 "Contato salvo com sucesso" db2
      | .error e => .unhandled e

/-- The POST "/" handler with the (spec-modelled) succeeding store. -/
def postHandler (db : List Contato) (b : Body) : PostOutcome :=
  runPost db contatoCreate b

/-- Response of the GET "/contatos" handler: either a rendered view with
the data bound to it, or a plain status-and-text response. -/
inductive ContatosResponse where
  | render (view : String) (contatos : List Contato)
  | status (code : Nat) (body : String)
deriving DecidableEq

/-- Result of one GET "/contatos" request: the response together with
whatever was written to the diagnostic stream (`console.error`). -/
structure ContatosResult where
  response : ContatosResponse
  diagnostics : List String
deriving DecidableEq

/-- Modelled from the spec: `Contato.findAll` of the external ORM model
queries all stored records, with no filtering. -/
def contatoFindAll (db : List Contato) : Except String (List Contato) :=
  .ok db

/-- The GET "/contatos" handler (lines 64-72 of `src/app.js`),
parameterised by the result of `Contato.findAll()`: on success render
the "contatos" view with the records bound to the `contatos` variable;
on failure log the error to `console.error` and respond 500 with the
fixed generic text. -/
def getContatosHandler : Except String (List Contato) → ContatosResult
  | .ok contatos => ⟨.render "contatos" contatos, []⟩
  | .error e => ⟨.status 500 "Erro ao buscar contatos.", ["Erro ao buscar contatos: " ++ e]⟩

/-- An inbound request as the access logger sees it: HTTP method and
original URL (path plus query). -/
structure Req where
  method : String
  originalUrl : String
deriving DecidableEq

/-- The log line built by the middleware:
`` `${new Date().toISOString()} - ${req.method} ${req.originalUrl}\n` ``. -/
def logLine (ts : String) (r : Req) : String :=
  ts ++ " - " ++ r.method ++ " " ++ r.originalUrl ++ "\n"

/-- Outcome of the `fs.appendFile` callback: success or an error. -/
inductive AppendResult where
  | ok
  | fail (e : String)
deriving DecidableEq

/-- Result of running the access-logger middleware on one request: the
log file contents, the diagnostic stream, and whether `next()` was
called (the request proceeds). -/
structure MwResult where
  accessLog : List String
  diagnostics : List String
  proceeds : Bool
deriving DecidableEq

/-- The access-logger middleware (lines 10-18 of `src/app.js`): build
the log line and append it to `access.log`; if the append fails, the
callback only reports to `console.error`.  `next()` is called
unconditionally, outside the callback, so the request proceeds in every
case. -/
def accessLogger (log : List String) (ts : String) (r : Req) :
    AppendResult → MwResult
  | .ok => ⟨log ++ [logLine ts r], [], true⟩
  | .fail e => ⟨log, ["Erro ao escrever no arquivo de log: " ++ e], true⟩

/-- The haystack string contains the needle as a contiguous substring. -/
def strIncludes (hay sub : String) : Prop :=
  sub.data <:+: hay.data

instance (hay sub : String) : Decidable (strIncludes hay sub) :=
  List.decidableInfix sub.data hay.data

/-- The specification's description of the phone shape, written from its
words alone: two digits in parentheses, a space, five digits, a hyphen,
four digits, with nothing before or after. -/
def phoneSpec (s : String) : Prop :=
  ∃ d1 d2 : Char, ∃ p q : List Char,
    d1.isDigit = true ∧ d2.isDigit = true ∧
    p.length = 5 ∧ (∀ c ∈ p, c.isDigit = true) ∧
    q.length = 4 ∧ (∀ c ∈ q, c.isDigit = true) ∧
    s.data = '(' :: d1 :: d2 :: ')' :: ' ' :: (p ++ '-' :: q)

/-! ### Helper lemmas -/

lemma string_data_append (a b : String) : (a ++ b).data = a.data ++ b.data := rfl

/-- Every element of the joined list occurs as a substring of the join. -/
lemma mem_infix_joinSep (sep : String) :
    ∀ (l : List String) (m : String), m ∈ l → m.data <:+: (joinSep sep l).data
  | [], m, h => absurd h (List.not_mem_nil m)
  | [x], m, h => by
      rw [List.mem_singleton] at h
      subst h
      exact List.infix_rfl
  | x :: y :: ys, m, h => by
      rcases List.mem_cons.1 h with rfl | h2
      · exact ⟨[], (sep ++ joinSep sep (y :: ys)).data, by
          simp [joinSep, string_data_append]⟩
      · obtain ⟨s, t, hst⟩ := mem_infix_joinSep sep (y :: ys) m h2
        exact ⟨(x ++ sep).data ++ s, t, by
          simp [joinSep, string_data_append, ← hst]⟩

/-- When some rule is violated, `fieldsParse` fails with exactly the
collected issue messages. -/
lemma fieldsParse_error_of_issue (n e t : Option JsonVal)
    (h : issuesOf n e t ≠ []) :
    fieldsParse n e t = .error (issuesOf n e t) := by
  rcases hn : parseNome n with ln | sn <;>
    rcases he : parseEmail e with le | se <;>
      rcases ht : parseTelefone t with lt | st <;>
        simp_all [fieldsParse, issuesOf, nomeIssues, emailIssues, telefoneIssues, errsOf]

/-- When every rule passes, `fieldsParse` succeeds with the three
validated strings. -/
lemma fieldsParse_ok (n e t : Option JsonVal) (sn se st : String)
    (hn : parseNome n = .ok sn) (he : parseEmail e = .ok se)
    (ht : parseTelefone t = .ok st) :
    fieldsParse n e t = .ok ⟨sn, st, se⟩ := by
  simp [fieldsParse, hn, he, ht]

/-- Validation failure turns into a 400 response with the joined
messages, for any persistence operation (which is never reached). -/
lemma runPost_error (db : List Contato)
    (create : List Contato → Contato → Except String (List Contato))
    (b : Body) (msgs : List String) (h : safeParse b = .error msgs) :
    runPost db create b = .responded 400 (joinSep "; " msgs) db := by
  simp [runPost, h]

/-! ### Claim theorems -/

/-- C1: a submission whose `nome`, `email` and `telefone` all satisfy
the schema gets a 200 response with the fixed success text, and the
store afterwards is the old store plus exactly one new record holding
exactly those three field values. -/
theorem claim_C1 (db : List Contato) (b : Body) (n e t : String)
    (hn : b.nome = some (.str n)) (hnv : 3 ≤ n.length)
    (he : b.email = some (.str e)) (hev : zodEmail e = true)
    (ht : b.telefone = some (.str t)) (htv : matchesTelefone t = true) :
    postHandler db b =
      .responded 200 "Contato salvo com sucesso" (db ++ [⟨n, t, e⟩]) := by
  have pn : parseNome b.nome = .ok n := by
    simp [hn, parseNome, Nat.not_lt.2 hnv]
  have pe : parseEmail b.email = .ok e := by
    simp [he, parseEmail, hev]
  have pt : parseTelefone b.telefone = .ok t := by
    simp [ht, parseTelefone, htv]
  have hsp : safeParse b = .ok ⟨n, t, e⟩ :=
    fieldsParse_ok b.nome b.email b.telefone n e t pn pe pt
  simp [postHandler, runPost, hsp, contatoCreate]

/-- C1 witness: the spec's own example submission. -/
theorem claim_C1_witness :
    postHandler []
      ⟨some (.str "Ana Silva"), some (.str "ana@example.com"),
       some (.str "(11) 91234-5678"), []⟩ =
      .responded 200 "Contato salvo com sucesso"
        [⟨"Ana Silva", "(11) 91234-5678", "ana@example.com"⟩] := by
  have h := claim_C1 []
    ⟨some (.str "Ana Silva"), some (.str "ana@example.com"),
     some (.str "(11) 91234-5678"), []⟩
    "Ana Silva" "ana@example.com" "(11) 91234-5678"
    rfl (by decide) rfl (by decide) rfl (by decide)
  simpa using h

/-- C3: a submission violating more than one rule gets a single 400
response whose body is all the corresponding messages joined by "; ",
in schema declaration order (`nome`, then `email`, then `telefone`). -/
theorem claim_C3 (db : List Contato) (b : Body)
    (h : 2 ≤ (issuesOf b.nome b.email b.telefone).length) :
    postHandler db b =
      .responded 400
        (joinSep "; "
          (nomeIssues b.nome ++ emailIssues b.email ++ telefoneIssues b.telefone))
        db := by
  have hne : issuesOf b.nome b.email b.telefone ≠ [] := by
    intro h0
    rw [h0] at h
    exact absurd h (by decide)
  have hsp : safeParse b = .error (issuesOf b.nome b.email b.telefone) :=
    fieldsParse_error_of_issue b.nome b.email b.telefone hne
  exact runPost_error db contatoCreate b _ hsp

/-- C3 witness: a submission violating all three rules. -/
theorem claim_C3_witness :
    postHandler [] ⟨some (.str "A"), some (.str "foo"), some (.str "123"), []⟩ =
      .responded 400
        ("O nome deve ter no mínimo 03 caracteres.; " ++
         "Deve ser um e-mail válido.; Deve enviar um telefone válido")
        [] := by
  have h := claim_C3 [] ⟨some (.str "A"), some (.str "foo"), some (.str "123"), []⟩
    (by decide)
  rw [h]
  decide

/-- C4: a submission that fails validation gets a 400 response and
leaves the store exactly as it was, whatever the persistence operation
is (it is never invoked). -/
theorem claim_C4 (db : List Contato)
    (create : List Contato → Contato → Except String (List Contato))
    (b : Body) (msgs : List String) (h : safeParse b = .error msgs) :
    runPost db create b = .responded 400 (joinSep "; " msgs) db :=
  runPost_error db create b msgs h

/-- C4 witness: an invalid submission against a nonempty store leaves
the store unchanged. -/
theorem claim_C4_witness :
    runPost [⟨"Ana Silva", "(11) 91234-5678", "ana@example.com"⟩] contatoCreate
      ⟨none, none, none, []⟩ =
      .responded 400
        "Campo nome é obrigatório; Campo e-mail é obrigatório.; Required"
        [⟨"Ana Silva", "(11) 91234-5678", "ana@example.com"⟩] := by
  have h := claim_C4 [⟨"Ana Silva", "(11) 91234-5678", "ana@example.com"⟩]
    contatoCreate ⟨none, none, none, []⟩
    ["Campo nome é obrigatório", "Campo e-mail é obrigatório.", "Required"]
    rfl
  rw [h]
  decide

/-- C5: a string `nome` shorter than 3 characters yields a 400 response
(store untouched) whose body includes the minimum-length message, and a
string `nome` of length 3 or more satisfies the name rules. -/
theorem claim_C5 (db : List Contato) (b : Body) (n : String) :
    (b.nome = some (.str n) → n.length < 3 →
      ∃ body, postHandler db b = .responded 400 body db ∧
        strIncludes body "O nome deve ter no mínimo 03 caracteres.") ∧
    (3 ≤ n.length → nomeIssues (some (.str n)) = []) := by
  constructor
  · intro hn hlen
    have hiss : nomeIssues b.nome = ["O nome deve ter no mínimo 03 caracteres."] := by
      simp [hn, nomeIssues, parseNome, hlen, errsOf]
    have hne : issuesOf b.nome b.email b.telefone ≠ [] := by
      simp [issuesOf, hiss]
    have hsp : safeParse b = .error (issuesOf b.nome b.email b.telefone) :=
      fieldsParse_error_of_issue b.nome b.email b.telefone hne
    refine ⟨joinSep "; " (issuesOf b.nome b.email b.telefone),
      runPost_error db contatoCreate b _ hsp, ?_⟩
    apply mem_infix_joinSep
    rw [issuesOf, hiss]
    simp
  · intro hlen
    simp [nomeIssues, parseNome, Nat.not_lt.2 hlen, errsOf]

/-- C5 witness: a two-character name is rejected with the
minimum-length message; a three-character name passes the name rules. -/
theorem claim_C5_witness :
    (∃ body,
      postHandler [] ⟨some (.str "Jo"), some (.str "jo@example.com"),
        some (.str "(11) 91234-5678"), []⟩ = .responded 400 body [] ∧
      strIncludes body "O nome deve ter no mínimo 03 caracteres.") ∧
    nomeIssues (some (.str "Joa")) = [] := by
  constructor
  · exact (claim_C5 [] ⟨some (.str "Jo"), some (.str "jo@example.com"),
      some (.str "(11) 91234-5678"), []⟩ "Jo").1 rfl (by decide)
  · exact (claim_C5 [] ⟨none, none, none, []⟩ "Joa").2 (by decide)

/-- C7: when `telefone` is absent the phone rule produces Zod's default
"Required" wording (no custom message is declared for it), validation
fails, and "Required" is among the reported messages. -/
theorem claim_C7 (b : Body) (h : b.telefone = none) :
    telefoneIssues b.telefone = ["Required"] ∧
    ∃ msgs, safeParse b = .error msgs ∧ "Required" ∈ msgs := by
  have hiss : telefoneIssues b.telefone = ["Required"] := by
    simp [h, telefoneIssues, parseTelefone, errsOf]
  have hne : issuesOf b.nome b.email b.telefone ≠ [] := by
    simp [issuesOf, hiss]
  refine ⟨hiss, issuesOf b.nome b.email b.telefone,
    fieldsParse_error_of_issue b.nome b.email b.telefone hne, ?_⟩
  rw [issuesOf, hiss]
  simp

/-- C7 witness: an otherwise valid submission with no `telefone`. -/
theorem claim_C7_witness :
    telefoneIssues (none : Option JsonVal) = ["Required"] ∧
    ∃ msgs,
      safeParse ⟨some (.str "Ana Silva"), some (.str "ana@example.com"),
        none, []⟩ = .error msgs ∧ "Required" ∈ msgs :=
  claim_C7 ⟨some (.str "Ana Silva"), some (.str "ana@example.com"), none, []⟩ rfl

/-- C8: when validation succeeds and the persistence call fails, the
handler catches nothing and sends no response of its own: the error
escapes unguarded. -/
theorem claim_C8 (db : List Contato) (b : Body) (c : Contato) (err : String)
    (create : List Contato → Contato → Except String (List Contato))
    (hok : safeParse b = .ok c) (hfail : create db c = .error err) :
    runPost db create b = .unhandled err := by
  simp [runPost, hok, hfail]

/-- C8 witness: a valid submission against an always-failing store. -/
theorem claim_C8_witness :
    runPost [] (fun _ _ => .error "db down")
      ⟨some (.str "Ana Silva"), some (.str "ana@example.com"),
       some (.str "(11) 91234-5678"), []⟩ = .unhandled "db down" :=
  claim_C8 []
    ⟨some (.str "Ana Silva"), some (.str "ana@example.com"),
     some (.str "(11) 91234-5678"), []⟩
    ⟨"Ana Silva", "(11) 91234-5678", "ana@example.com"⟩ "db down"
    (fun _ _ => .error "db down") rfl rfl

/-- C9: the access-logger middleware appends exactly one line, of the
form timestamp, " - ", method, space, original URL, newline; when the
append fails the error is only reported to the diagnostic stream; the
request proceeds (`next()` is called) in both cases. -/
theorem claim_C9 (log : List String) (ts : String) (r : Req) :
    accessLogger log ts r .ok =
      ⟨log ++ [ts ++ " - " ++ r.method ++ " " ++ r.originalUrl ++ "\n"], [], true⟩ ∧
    ∀ e, accessLogger log ts r (.fail e) =
      ⟨log, ["Erro ao escrever no arquivo de log: " ++ e], true⟩ :=
  ⟨rfl, fun _ => rfl⟩

/-- C10: the POST "/" outcome (status, body, and resulting store)
depends only on the `nome`, `email` and `telefone` fields of the body;
extra or unknown fields change nothing and are never persisted. -/
theorem claim_C10 (db : List Contato) (b1 b2 : Body)
    (hn : b1.nome = b2.nome) (he : b1.email = b2.email)
    (ht : b1.telefone = b2.telefone) :
    postHandler db b1 = postHandler db b2 := by
  unfold postHandler runPost safeParse
  rw [hn, he, ht]

/-- C10 witness: two bodies differing only in an unknown extra field
get identical outcomes. -/
theorem claim_C10_witness :
    postHandler []
      ⟨some (.str "Ana Silva"), some (.str "ana@example.com"),
       some (.str "(11) 91234-5678"), [("admin", .str "true")]⟩ =
    postHandler []
      ⟨some (.str "Ana Silva"), some (.str "ana@example.com"),
       some (.str "(11) 91234-5678"), []⟩ :=
  claim_C10 []
    ⟨some (.str "Ana Silva"), some (.str "ana@example.com"),
     some (.str "(11) 91234-5678"), [("admin", .str "true")]⟩
    ⟨some (.str "Ana Silva"), some (.str "ana@example.com"),
     some (.str "(11) 91234-5678"), []⟩
    rfl rfl rfl

/-- C6: GET "/contatos" renders the "contatos" view with the full
stored record set bound to `contatos` when the query succeeds, logs the
error and responds 500 with the fixed generic text when it fails, and
no other outcome exists. -/
theorem claim_C6 :
    (∀ db, getContatosHandler (contatoFindAll db) = ⟨.render "contatos" db, []⟩) ∧
    (∀ e, getContatosHandler (.error e) =
      ⟨.status 500 "Erro ao buscar contatos.", ["Erro ao buscar contatos: " ++ e]⟩) ∧
    (∀ r, (∃ cs, r = .ok cs ∧ getContatosHandler r = ⟨.render "contatos" cs, []⟩) ∨
      (∃ e, r = .error e ∧ getContatosHandler r =
        ⟨.status 500 "Erro ao buscar contatos.", ["Erro ao buscar contatos: " ++ e]⟩)) := by
  refine ⟨fun db => rfl, fun e => rfl, fun r => ?_⟩
  cases r with
  | ok cs => exact Or.inl ⟨cs, rfl, rfl⟩
  | error e => exact Or.inr ⟨e, rfl, rfl⟩

/-- The telefone regex accepts exactly the strings of the shape the
specification describes: two digits in parentheses, a space, five
digits, a hyphen, four digits, and nothing else. -/
lemma matchesTelefone_iff (s : String) : matchesTelefone s = true ↔ phoneSpec s := by
  constructor
  · intro h
    unfold matchesTelefone at h
    split at h
    case h_2 => exact Bool.noConfusion h
    case h_1 c0 c1 c2 c3 c4 c5 c6 c7 c8 c9 c10 c11 c12 c13 c14 heq =>
      simp only [Bool.and_eq_true, beq_iff_eq] at h
      obtain ⟨⟨⟨⟨⟨⟨⟨⟨⟨⟨⟨⟨⟨⟨h0, h1⟩, h2⟩, h3⟩, h4⟩, h5⟩, h6⟩, h7⟩, h8⟩, h9⟩, h10⟩, h11⟩, h12⟩, h13⟩, h14⟩ := h
      subst h0 h3 h4 h10
      refine ⟨c1, c2, [c5, c6, c7, c8, c9], [c11, c12, c13, c14],
        h1, h2, rfl, ?_, rfl, ?_, ?_⟩
      · intro c hc
        simp only [List.mem_cons, List.not_mem_nil, or_false] at hc
        rcases hc with rfl | rfl | rfl | rfl | rfl <;> assumption
      · intro c hc
        simp only [List.mem_cons, List.not_mem_nil, or_false] at hc
        rcases hc with rfl | rfl | rfl | rfl <;> assumption
      · rw [heq]
        rfl
  · rintro ⟨d1, d2, p, q, hd1, hd2, hp5, hpall, hq4, hqall, hdata⟩
    rcases p with _ | ⟨a1, p⟩; · simp at hp5
    rcases p with _ | ⟨a2, p⟩; · simp at hp5
    rcases p with _ | ⟨a3, p⟩; · simp at hp5
    rcases p with _ | ⟨a4, p⟩; · simp at hp5
    rcases p with _ | ⟨a5, p⟩; · simp at hp5
    rcases p with _ | ⟨a6, p⟩
    swap; · simp at hp5
    rcases q with _ | ⟨b1, q⟩; · simp at hq4
    rcases q with _ | ⟨b2, q⟩; · simp at hq4
    rcases q with _ | ⟨b3, q⟩; · simp at hq4
    rcases q with _ | ⟨b4, q⟩; · simp at hq4
    rcases q with _ | ⟨b5, q⟩
    swap; · simp at hq4
    have ha1 := hpall a1 (by simp)
    have ha2 := hpall a2 (by simp)
    have ha3 := hpall a3 (by simp)
    have ha4 := hpall a4 (by simp)
    have ha5 := hpall a5 (by simp)
    have hb1 := hqall b1 (by simp)
    have hb2 := hqall b2 (by simp)
    have hb3 := hqall b3 (by simp)
    have hb4 := hqall b4 (by simp)
    simp only [List.cons_append, List.nil_append] at hdata
    simp [matchesTelefone, hdata, hd1, hd2, ha1, ha2, ha3, ha4, ha5, hb1, hb2, hb3, hb4]

/-- C2: the `telefone` rule accepts a string exactly when it has the
shape two digits in parentheses, a space, five digits, a hyphen, four
digits, with nothing before or after; and a submission whose `telefone`
is any other string gets a 400 response whose body includes the
phone-format message. -/
theorem claim_C2 (s : String) :
    (matchesTelefone s = true ↔ phoneSpec s) ∧
    (∀ (db : List Contato) (b : Body), b.telefone = some (.str s) →
      matchesTelefone s = false →
      ∃ body, postHandler db b = .responded 400 body db ∧
        strIncludes body "Deve enviar um telefone válido") := by
  refine ⟨matchesTelefone_iff s, fun db b ht hbad => ?_⟩
  have hiss : telefoneIssues b.telefone = ["Deve enviar um telefone válido"] := by
    simp [ht, telefoneIssues, parseTelefone, hbad, errsOf]
  have hne : issuesOf b.nome b.email b.telefone ≠ [] := by
    simp [issuesOf, hiss]
  have hsp : safeParse b = .error (issuesOf b.nome b.email b.telefone) :=
    fieldsParse_error_of_issue b.nome b.email b.telefone hne
  refine ⟨joinSep "; " (issuesOf b.nome b.email b.telefone),
    runPost_error db contatoCreate b _ hsp, ?_⟩
  apply mem_infix_joinSep
  rw [issuesOf, hiss]
  simp

/-- C2 witness: the regex accepts the spec's example number, and a
submission with the malformed number "123" is rejected with the
phone-format message. -/
theorem claim_C2_witness :
    matchesTelefone "(11) 91234-5678" = true ∧
    ∃ body,
      postHandler [] ⟨some (.str "Ana Silva"), some (.str "ana@example.com"),
        some (.str "123"), []⟩ = .responded 400 body [] ∧
      strIncludes body "Deve enviar um telefone válido" :=
  ⟨(claim_C2 "(11) 91234-5678").1.mpr
    ⟨'1', '1', ['9', '1', '2', '3', '4'], ['5', '6', '7', '8'],
      by decide, by decide, rfl, by decide, rfl, by decide, by decide⟩,
   (claim_C2 "123").2 []
    ⟨some (.str "Ana Silva"), some (.str "ana@example.com"),
      some (.str "123"), []⟩ rfl (by decide)⟩
